import Mathlib

/-!
Verification development for the website monitoring engine in `monitor.py`
(repository `genius-landing-monitoring`).

The shallow embedding below translates the pure core of the program:
the probe-result classification in `check_website`, the per-iteration
statistics/state update performed by `monitor_loop`, the report scheduler
`should_send_report`, and the statistics queries `calculate_uptime`.
Latencies and timestamps are modelled as rationals/integers; the
Python value `None` becomes `Option`.
-/

namespace GeniusMonitor

/-- The dict returned by `check_website` in `monitor.py`:
keys `is_up`, `status_code`, `response_time`, `content_length`, `error`.
`response_time` is `None` on the exception paths, hence `Option ℚ`;
`error` is `None` on success, hence `Option String`. -/
structure CheckResult where
  is_up : Bool
  status_code : ℕ
  response_time : Option ℚ
  content_length : ℕ
  error : Option String
deriving DecidableEq, Repr

/-- The part of an HTTP response that `check_website` inspects:
`response.status_code`, `response.content` (bytes, used only through
`len(response.content)`), and `response.text` (decoded string, used only
by the required-substring check). -/
structure HttpResponse where
  status_code : ℕ
  content : List ℕ
  text : String
deriving DecidableEq, Repr

/-- Tests that `need` is a prefix of `hay` (character lists). Helper for
modelling the Python substring operator. -/
def startsWith : List Char → List Char → Bool
  | _, [] => true
  | [], _ :: _ => false
  | c :: cs, d :: ds => c == d && startsWith cs ds

/-- Models the Python test `need in hay` on strings: `need` occurs
contiguously in `hay`. -/
def hasSubstring : List Char → List Char → Bool
  | [], need => need.isEmpty
  | c :: cs, need => startsWith (c :: cs) need || hasSubstring cs need

/-- The response-classification logic of `check_website` (monitor.py lines
151-196), given the received response and the measured response time.
Check 1: status code `>= 400`; Check 2: `len(response.content)` below
`MIN_CONTENT_LENGTH`; Check 3: `REQUIRED_CONTENT` nonempty and absent from
`response.text`.  (In the source the required-content error text wraps the
configured string in single quotes; the quotes are elided here.)
The network-exception arms of the source function never reach this code. -/
def check_website (MIN_CONTENT_LENGTH : ℕ) (REQUIRED_CONTENT : String)
    (response : HttpResponse) (response_time : ℚ) : CheckResult :=
  let content_length := response.content.length
  if response.status_code ≥ 400 then
    { is_up := false, status_code := response.status_code,
      response_time := some response_time, content_length := content_length,
      error := some ("HTTP " ++ toString response.status_code) }
  else if content_length < MIN_CONTENT_LENGTH then
    { is_up := false, status_code := response.status_code,
      response_time := some response_time, content_length := content_length,
      error := some ("Content too short (" ++ toString content_length ++
        " bytes, expected >" ++ toString MIN_CONTENT_LENGTH ++ ")") }
  else if REQUIRED_CONTENT ≠ "" ∧
      hasSubstring response.text.data REQUIRED_CONTENT.data = false then
    { is_up := false, status_code := response.status_code,
      response_time := some response_time, content_length := content_length,
      error := some ("Required content " ++ REQUIRED_CONTENT ++ " not found") }
  else
    { is_up := true, status_code := response.status_code,
      response_time := some response_time, content_length := content_length,
      error := none }

/-- The two state-change events `monitor_loop` can emit for one probe:
a down alert (`send_down_alert`) or a recovery alert (`send_recovery_alert`). -/
inductive Event where
  | DOWN : Event
  | RECOVERY : Event
deriving DecidableEq, BEq, Repr

/-- The global `stats` dict of `monitor.py`.  `is_up` is the Python
tri-state `None`/`True`/`False`; `down_since` holds a timestamp (modelled
as ℤ) or `None`; `last_report_minute` is an integer with sentinel `-1`. -/
structure Stats where
  total_checks : ℕ
  successful_checks : ℕ
  failed_checks : ℕ
  response_times : List ℚ
  is_up : Option Bool
  down_since : Option ℤ
  last_report_minute : ℤ
  checks_this_interval : ℕ
  last_check_result : Option CheckResult
deriving DecidableEq, Repr

/-- The initial value of the `stats` dict (monitor.py lines 49-59). -/
def initial_stats : Stats :=
  { total_checks := 0, successful_checks := 0, failed_checks := 0,
    response_times := [], is_up := none, down_since := none,
    last_report_minute := -1, checks_this_interval := 0,
    last_check_result := none }

/-- The rolling-window trim in `monitor_loop`: after an append,
`if len(stats["response_times"]) > 60: stats["response_times"].pop(0)`. -/
def trimWindow (l : List ℚ) : List ℚ :=
  if l.length > 60 then l.tail else l

/-- One iteration of the statistics/state-machine update in `monitor_loop`
(monitor.py lines 429-457), excluding the report check: bumps the
counters, stores the result, appends the response time to the rolling
window (Python tests `if result["response_time"]:`, so `None` and `0.0`
are both skipped), and decides whether a down or recovery alert fires.
`now` is the value `get_local_time()` would return, stored in
`down_since` on a down transition.  Returns the updated stats and the
emitted event, if any. -/
def process_result (s : Stats) (result : CheckResult) (now : ℤ) :
    Stats × Option Event :=
  let s0 : Stats :=
    { s with total_checks := s.total_checks + 1,
             checks_this_interval := s.checks_this_interval + 1,
             last_check_result := some result }
  if result.is_up then
    let s1 : Stats := { s0 with successful_checks := s0.successful_checks + 1 }
    let s2 : Stats :=
      match result.response_time with
      | some rt =>
          if rt ≠ 0 then
            { s1 with response_times := trimWindow (s1.response_times ++ [rt]) }
          else s1
      | none => s1
    if s2.is_up = some false then
      ({ s2 with is_up := some true, down_since := none }, some Event.RECOVERY)
    else
      ({ s2 with is_up := some true }, none)
  else
    let s1 : Stats := { s0 with failed_checks := s0.failed_checks + 1 }
    if s1.is_up = some true ∨ s1.is_up = none then
      ({ s1 with is_up := some false, down_since := some now }, some Event.DOWN)
    else
      ({ s1 with is_up := some false }, none)

/-- Folding `process_result` over a list of (probe result, current time)
pairs: the stats after those loop iterations. -/
def run_state : Stats → List (CheckResult × ℤ) → Stats
  | s, [] => s
  | s, (r, t) :: rest => run_state (process_result s r t).1 rest

/-- The events `monitor_loop` emits over a list of (probe result, current
time) pairs, in order. -/
def run_events : Stats → List (CheckResult × ℤ) → List Event
  | _, [] => []
  | s, (r, t) :: rest =>
      (process_result s r t).2.toList ++ run_events (process_result s r t).1 rest

/-- The function `should_send_report` (monitor.py lines 74-91): given the configured
`REPORT_INTERVAL_MINUTES`, the current wall-clock minute-of-hour, and the
stats (for its `last_report_minute` field), returns whether a report is
due and the (possibly updated) stats. -/
def should_send_report (REPORT_INTERVAL_MINUTES : ℕ) (current_minute : ℕ)
    (s : Stats) : Bool × Stats :=
  let is_report_time := current_minute % REPORT_INTERVAL_MINUTES = 0
  if is_report_time ∧ s.last_report_minute ≠ (current_minute : ℤ) then
    (true, { s with last_report_minute := (current_minute : ℤ) })
  else
    (false, s)

/-- The function `calculate_uptime` (monitor.py lines 223-227). -/
def calculate_uptime (s : Stats) : ℚ :=
  if s.total_checks = 0 then 0
  else ((s.successful_checks : ℚ) / (s.total_checks : ℚ)) * 100

/-- The function `calculate_avg_response_time` (monitor.py lines 230-234). -/
def calculate_avg_response_time (s : Stats) : ℚ :=
  if s.response_times = [] then 0
  else s.response_times.sum / (s.response_times.length : ℚ)

/-! ### Helper lemmas about one `process_result` step -/

lemma process_result_total (s : Stats) (r : CheckResult) (t : ℤ) :
    (process_result s r t).1.total_checks = s.total_checks + 1 := by
  rcases r with ⟨is_up, sc, rt, cl, err⟩
  cases is_up <;> cases rt <;>
    simp only [process_result] <;> split_ifs <;> simp

lemma process_result_succ_of_up (s : Stats) (r : CheckResult) (t : ℤ)
    (h : r.is_up = true) :
    (process_result s r t).1.successful_checks = s.successful_checks + 1 ∧
    (process_result s r t).1.failed_checks = s.failed_checks := by
  rcases r with ⟨is_up, sc, rt, cl, err⟩
  cases is_up
  · simp at h
  · cases rt <;> simp only [process_result] <;> split_ifs <;> simp_all

lemma process_result_fail_of_down (s : Stats) (r : CheckResult) (t : ℤ)
    (h : r.is_up = false) :
    (process_result s r t).1.failed_checks = s.failed_checks + 1 ∧
    (process_result s r t).1.successful_checks = s.successful_checks := by
  rcases r with ⟨is_up, sc, rt, cl, err⟩
  cases is_up
  · cases rt <;> simp only [process_result] <;> split_ifs <;> simp_all
  · simp at h

lemma process_result_is_up (s : Stats) (r : CheckResult) (t : ℤ) :
    (process_result s r t).1.is_up = some r.is_up := by
  rcases r with ⟨is_up, sc, rt, cl, err⟩
  cases is_up <;> cases rt <;>
    simp only [process_result] <;> split_ifs <;> simp_all

lemma process_result_down_iff (s : Stats) (r : CheckResult) (t : ℤ) :
    (process_result s r t).2 = some Event.DOWN ↔
      (s.is_up = some true ∨ s.is_up = none) ∧ r.is_up = false := by
  rcases r with ⟨is_up, sc, rt, cl, err⟩
  cases is_up <;> cases rt <;>
    simp only [process_result] <;> split_ifs <;> simp_all

lemma process_result_recovery_iff (s : Stats) (r : CheckResult) (t : ℤ) :
    (process_result s r t).2 = some Event.RECOVERY ↔
      s.is_up = some false ∧ r.is_up = true := by
  rcases r with ⟨is_up, sc, rt, cl, err⟩
  cases is_up <;> cases rt <;>
    simp only [process_result] <;> split_ifs <;> simp_all

lemma process_result_none_iff (s : Stats) (r : CheckResult) (t : ℤ) :
    (process_result s r t).2 = none ↔
      ¬ ((s.is_up = some true ∨ s.is_up = none) ∧ r.is_up = false) ∧
      ¬ (s.is_up = some false ∧ r.is_up = true) := by
  rcases r with ⟨is_up, sc, rt, cl, err⟩
  cases is_up <;> cases rt <;>
    simp only [process_result] <;> split_ifs <;> simp_all

/-! ### Helper lemmas about runs -/

lemma run_state_append (s : Stats) (l m : List (CheckResult × ℤ)) :
    run_state s (l ++ m) = run_state (run_state s l) m := by
  induction l generalizing s with
  | nil => rfl
  | cons p rest ih => rcases p with ⟨r, t⟩; simp [run_state, ih]

lemma run_events_append (s : Stats) (l m : List (CheckResult × ℤ)) :
    run_events s (l ++ m) = run_events s l ++ run_events (run_state s l) m := by
  induction l generalizing s with
  | nil => rfl
  | cons p rest ih =>
      rcases p with ⟨r, t⟩
      simp [run_events, run_state, ih]

/-- Counter invariant, preserved step by step: the total equals
successes plus failures, and successes stay below the total. -/
lemma process_result_counters (s : Stats) (r : CheckResult) (t : ℤ)
    (h : s.total_checks = s.successful_checks + s.failed_checks) :
    (process_result s r t).1.total_checks =
      (process_result s r t).1.successful_checks +
      (process_result s r t).1.failed_checks := by
  cases hr : r.is_up
  · obtain ⟨h1, h2⟩ := process_result_fail_of_down s r t hr
    rw [process_result_total, h1, h2, h]; ring
  · obtain ⟨h1, h2⟩ := process_result_succ_of_up s r t hr
    rw [process_result_total, h1, h2, h]; ring

lemma run_state_counters (l : List (CheckResult × ℤ)) (s : Stats)
    (h : s.total_checks = s.successful_checks + s.failed_checks) :
    (run_state s l).total_checks =
      (run_state s l).successful_checks + (run_state s l).failed_checks := by
  induction l generalizing s with
  | nil => exact h
  | cons p rest ih =>
      rcases p with ⟨r, t⟩
      exact ih _ (process_result_counters s r t h)

lemma process_result_succ_le (s : Stats) (r : CheckResult) (t : ℤ)
    (h : s.successful_checks ≤ s.total_checks) :
    (process_result s r t).1.successful_checks ≤
      (process_result s r t).1.total_checks := by
  cases hr : r.is_up
  · obtain ⟨_, h2⟩ := process_result_fail_of_down s r t hr
    rw [process_result_total, h2]; omega
  · obtain ⟨h1, _⟩ := process_result_succ_of_up s r t hr
    rw [process_result_total, h1]; omega

lemma run_state_succ_le (l : List (CheckResult × ℤ)) (s : Stats)
    (h : s.successful_checks ≤ s.total_checks) :
    (run_state s l).successful_checks ≤ (run_state s l).total_checks := by
  induction l generalizing s with
  | nil => exact h
  | cons p rest ih =>
      rcases p with ⟨r, t⟩
      exact ih _ (process_result_succ_le s r t h)

/-! ### Helper lemmas about the latency window -/

lemma trimWindow_length_le (l : List ℚ) (h : l.length ≤ 61) :
    (trimWindow l).length ≤ 60 := by
  unfold trimWindow
  split <;> simp_all

lemma process_result_window_up (s : Stats) (r : CheckResult) (t : ℤ) (v : ℚ)
    (hup : r.is_up = true) (hv : r.response_time = some v) (hv0 : v ≠ 0) :
    (process_result s r t).1.response_times =
      trimWindow (s.response_times ++ [v]) := by
  rcases r with ⟨is_up, sc, rt, cl, err⟩
  simp only [] at hup hv
  subst hup hv
  simp only [process_result] <;> split_ifs <;> simp_all

lemma process_result_window_cases (s : Stats) (r : CheckResult) (t : ℤ) :
    (process_result s r t).1.response_times = s.response_times ∨
    ∃ v : ℚ, (process_result s r t).1.response_times =
      trimWindow (s.response_times ++ [v]) := by
  rcases r with ⟨is_up, sc, rt, cl, err⟩
  cases is_up <;> cases rt <;>
    simp only [process_result] <;> split_ifs <;> simp_all <;>
      exact Or.inr ⟨_, rfl⟩

lemma process_result_window_le (s : Stats) (r : CheckResult) (t : ℤ)
    (h : s.response_times.length ≤ 60) :
    (process_result s r t).1.response_times.length ≤ 60 := by
  rcases process_result_window_cases s r t with hc | ⟨v, hc⟩
  · rw [hc]; exact h
  · rw [hc]
    apply trimWindow_length_le
    simp; omega

lemma run_state_window_le (l : List (CheckResult × ℤ)) (s : Stats)
    (h : s.response_times.length ≤ 60) :
    (run_state s l).response_times.length ≤ 60 := by
  induction l generalizing s with
  | nil => exact h
  | cons p rest ih =>
      rcases p with ⟨r, t⟩
      exact ih _ (process_result_window_le s r t h)

/-- When every outcome in the list is up and carries a nonzero latency,
the window after the run is the fold of append-and-trim over the
latencies. -/
lemma run_state_window_fold (l : List (CheckResult × ℤ)) (s : Stats)
    (h : ∀ p ∈ l, p.1.is_up = true ∧
      ∃ v : ℚ, p.1.response_time = some v ∧ v ≠ 0) :
    (run_state s l).response_times =
      List.foldl (fun w v => trimWindow (w ++ [v])) s.response_times
        (l.map fun p => p.1.response_time.getD 0) := by
  induction l generalizing s with
  | nil => rfl
  | cons p rest ih =>
      rcases p with ⟨r, t⟩
      obtain ⟨hup, v, hv, hv0⟩ := h (r, t) (by simp)
      have hw := process_result_window_up s r t v hup hv hv0
      have hgetD : (r, t).1.response_time.getD 0 = v := by rw [hv]; rfl
      simp only [run_state, List.map_cons, List.foldl_cons, hgetD]
      rw [← hw]
      exact ih _ (fun q hq => h q (by simp [hq]))

/-- Folding append-and-trim from a window of at most 60 entries keeps the
last 60 of the concatenation. -/
lemma foldl_trimWindow_drop (vs : List ℚ) (w : List ℚ) (h : w.length ≤ 60) :
    List.foldl (fun w v => trimWindow (w ++ [v])) w vs =
      (w ++ vs).drop (w.length + vs.length - 60) := by
  induction vs generalizing w with
  | nil =>
      have h0 : w.length + ([] : List ℚ).length - 60 = 0 := by simp; omega
      rw [h0]; simp
  | cons v rest ih =>
      by_cases h60 : w.length = 60
      · have hw : ∃ a tl, w = a :: tl := by
          cases w with
          | nil => simp at h60
          | cons a tl => exact ⟨a, tl, rfl⟩
        obtain ⟨a, tl, rfl⟩ := hw
        have hstep : trimWindow ((a :: tl) ++ [v]) = tl ++ [v] := by
          unfold trimWindow
          rw [if_pos (by simp at h60 ⊢; omega)]
          simp
        simp only [List.foldl_cons, hstep]
        rw [ih (tl ++ [v]) (by simp at h60 ⊢; omega)]
        have harith : (tl ++ [v]).length + rest.length - 60 = rest.length := by
          simp at h60 ⊢; omega
        have harith2 : (a :: tl).length + (v :: rest).length - 60 =
            rest.length + 1 := by
          simp at h60 ⊢; omega
        rw [harith, harith2]
        simp [List.append_assoc]
      · have hstep : trimWindow (w ++ [v]) = w ++ [v] := by
          unfold trimWindow
          rw [if_neg (by simp; omega)]
        simp only [List.foldl_cons, hstep]
        rw [ih (w ++ [v]) (by simp; omega)]
        have harith : (w ++ [v]).length + rest.length - 60 =
            w.length + (v :: rest).length - 60 := by simp; omega
        rw [harith]
        simp [List.append_assoc]

lemma process_result_down_since_set (s : Stats) (r : CheckResult) (t : ℤ)
    (hr : r.is_up = false) (hs : s.is_up = some true ∨ s.is_up = none) :
    (process_result s r t).1.down_since = some t := by
  rcases r with ⟨is_up, sc, rt, cl, err⟩
  cases is_up <;> cases rt <;>
    simp only [process_result] <;> split_ifs <;> simp_all

lemma process_result_down_since_cleared (s : Stats) (r : CheckResult) (t : ℤ)
    (hr : r.is_up = true) (hs : s.is_up = some false) :
    (process_result s r t).1.down_since = none := by
  rcases r with ⟨is_up, sc, rt, cl, err⟩
  cases is_up <;> cases rt <;>
    simp only [process_result] <;> split_ifs <;> simp_all

/-! ### Sample inputs used by the witnesses -/

/-- A successful probe result, as `check_website` returns on the
all-checks-passed path. -/
def up_result : CheckResult :=
  { is_up := true, status_code := 200, response_time := some 50,
    content_length := 1500, error := none }

/-- The probe result `check_website` returns on a network timeout. -/
def down_result : CheckResult :=
  { is_up := false, status_code := 0, response_time := none,
    content_length := 0, error := some "Connection timeout" }

/-! ### Claims -/

/-- C2: every recorded outcome increments `total_checks` by one and
exactly one of `successful_checks`/`failed_checks` by one, so
`total_checks = successful_checks + failed_checks` holds after every
recording step of `monitor_loop`, over every sequence of outcomes. -/
theorem stats_counters_sum_invariant :
    (∀ (s : Stats) (r : CheckResult) (t : ℤ),
      (process_result s r t).1.total_checks = s.total_checks + 1 ∧
      (r.is_up = true →
        (process_result s r t).1.successful_checks = s.successful_checks + 1 ∧
        (process_result s r t).1.failed_checks = s.failed_checks) ∧
      (r.is_up = false →
        (process_result s r t).1.failed_checks = s.failed_checks + 1 ∧
        (process_result s r t).1.successful_checks = s.successful_checks)) ∧
    ∀ l : List (CheckResult × ℤ),
      (run_state initial_stats l).total_checks =
        (run_state initial_stats l).successful_checks +
          (run_state initial_stats l).failed_checks := by
  constructor
  · intro s r t
    exact ⟨process_result_total s r t,
      fun h => process_result_succ_of_up s r t h,
      fun h => process_result_fail_of_down s r t h⟩
  · intro l
    exact run_state_counters l initial_stats rfl

/-- Witness for C2: one up outcome recorded from the initial stats. -/
theorem stats_counters_sum_invariant_witness :
    (process_result initial_stats up_result 0).1.successful_checks =
      initial_stats.successful_checks + 1 ∧
    (process_result initial_stats up_result 0).1.failed_checks =
      initial_stats.failed_checks :=
  (stats_counters_sum_invariant.1 initial_stats up_result 0).2.1 rfl

/-- C5: `calculate_uptime` returns `0` when `total_checks = 0`, and
otherwise exactly `successful_checks / total_checks * 100`. -/
theorem calculate_uptime_spec (s : Stats) :
    (s.total_checks = 0 → calculate_uptime s = 0) ∧
    (s.total_checks ≠ 0 →
      calculate_uptime s =
        (s.successful_checks : ℚ) / (s.total_checks : ℚ) * 100) := by
  constructor
  · intro h; simp [calculate_uptime, h]
  · intro h; simp [calculate_uptime, h]

/-- A stats value with 1 success out of 2 checks, for the C5 witness. -/
def two_checks_one_success : Stats :=
  { initial_stats with total_checks := 2, successful_checks := 1 }

/-- Witness for C5: a stats value with 1 success out of 2 checks. -/
theorem calculate_uptime_spec_witness :
    calculate_uptime initial_stats = 0 ∧
    calculate_uptime two_checks_one_success =
      (two_checks_one_success.successful_checks : ℚ) /
        (two_checks_one_success.total_checks : ℚ) * 100 :=
  ⟨(calculate_uptime_spec initial_stats).1 rfl,
   (calculate_uptime_spec two_checks_one_success).2 (by decide)⟩

/-- C10: every stats state reachable from the initial one satisfies
`successful_checks ≤ total_checks`, hence `calculate_uptime` is always
between 0 and 100. -/
theorem uptime_bounds (l : List (CheckResult × ℤ)) :
    (run_state initial_stats l).successful_checks ≤
      (run_state initial_stats l).total_checks ∧
    0 ≤ calculate_uptime (run_state initial_stats l) ∧
    calculate_uptime (run_state initial_stats l) ≤ 100 := by
  have hle := run_state_succ_le l initial_stats (by simp [initial_stats])
  refine ⟨hle, ?_, ?_⟩
  · unfold calculate_uptime
    split
    · norm_num
    · positivity
  · unfold calculate_uptime
    split
    · norm_num
    · rename_i h
      have htot : (0 : ℚ) < ((run_state initial_stats l).total_checks : ℚ) := by
        exact_mod_cast Nat.pos_of_ne_zero h
      have hd : ((run_state initial_stats l).successful_checks : ℚ) /
          ((run_state initial_stats l).total_checks : ℚ) ≤ 1 := by
        rw [div_le_one htot]
        exact_mod_cast hle
      nlinarith

/-- C3: `should_send_report` reports due exactly when the current minute
is a multiple of the interval and differs from the stored marker; on
firing it stores the minute, so a second poll in the same minute does not
fire again. -/
theorem report_scheduler_due_iff (I m : ℕ) (s : Stats) (hI : 0 < I) :
    ((should_send_report I m s).1 = true ↔
      m % I = 0 ∧ s.last_report_minute ≠ (m : ℤ)) ∧
    ((should_send_report I m s).1 = true →
      (should_send_report I m s).2.last_report_minute = (m : ℤ)) ∧
    ((should_send_report I m s).1 = true →
      (should_send_report I m (should_send_report I m s).2).1 = false) := by
  have hmark : (should_send_report I m s).1 = true →
      (should_send_report I m s).2.last_report_minute = (m : ℤ) := by
    simp only [should_send_report]
    split_ifs with h
    · intro _; rfl
    · intro hf; exact absurd hf (by simp)
  have hgen : ∀ s' : Stats, s'.last_report_minute = (m : ℤ) →
      (should_send_report I m s').1 = false := by
    intro s' hs'
    simp only [should_send_report]
    rw [if_neg (by simp [hs'])]
  refine ⟨?_, hmark, fun hdue => hgen _ (hmark hdue)⟩
  simp only [should_send_report]
  split_ifs with h
  · simpa using h
  · exact iff_of_false (by simp) h

/-- Witness for C3: interval 10, minute 20, fresh marker. -/
theorem report_scheduler_due_iff_witness :
    ((should_send_report 10 20 initial_stats).1 = true ↔
      20 % 10 = 0 ∧ initial_stats.last_report_minute ≠ (20 : ℤ)) ∧
    ((should_send_report 10 20 initial_stats).1 = true →
      (should_send_report 10 20 initial_stats).2.last_report_minute =
        (20 : ℤ)) ∧
    ((should_send_report 10 20 initial_stats).1 = true →
      (should_send_report 10 20
        (should_send_report 10 20 initial_stats).2).1 = false) :=
  report_scheduler_due_iff 10 20 initial_stats (by decide)

/-- C8: when `should_send_report` does not report due, the stats —
`last_report_minute` in particular — are returned unchanged; hence after
a report fires at minute `m`, polls at minutes that are not multiples of
the interval leave the marker equal to `m`. -/
theorem report_scheduler_frame :
    (∀ (I m : ℕ) (s : Stats), 0 < I →
      ¬ (m % I = 0 ∧ s.last_report_minute ≠ (m : ℤ)) →
      should_send_report I m s = (false, s)) ∧
    (∀ (I m m' : ℕ) (s : Stats),
      (should_send_report I m s).1 = true →
      ¬ (m' % I = 0) →
      (should_send_report I m'
          (should_send_report I m s).2).2.last_report_minute = (m : ℤ)) := by
  constructor
  · intro I m s _ h
    simp only [should_send_report]
    rw [if_neg h]
  · intro I m m' s hfired hm'
    have hmarker : (should_send_report I m s).2.last_report_minute = (m : ℤ) := by
      revert hfired
      simp only [should_send_report]
      split_ifs <;> simp_all
    have hframe : should_send_report I m' (should_send_report I m s).2 =
        (false, (should_send_report I m s).2) := by
      simp only [should_send_report]
      rw [if_neg (by tauto)]
    rw [hframe, hmarker]

/-- Witness for C8: interval 10; no report due at minute 21, and after a
report fired at minute 20 the marker survives a poll at minute 21. -/
theorem report_scheduler_frame_witness :
    should_send_report 10 21 initial_stats = (false, initial_stats) ∧
    (should_send_report 10 21
        (should_send_report 10 20 initial_stats).2).2.last_report_minute =
      (20 : ℤ) :=
  ⟨report_scheduler_frame.1 10 21 initial_stats (by decide) (by decide),
   report_scheduler_frame.2 10 20 21 initial_stats (by decide) (by decide)⟩

/-- C1: one loop step emits DOWN exactly when the previous state was Up
(`is_up = some true`) or Unknown (`is_up = none`) and the outcome is
down, emits RECOVERY exactly when the previous state was Down and the
outcome is up, and emits no event otherwise; consequently the second of
two consecutive down outcomes never emits a DOWN event, and a pair of
consecutive down outcomes entered from a non-Down state emits exactly one
DOWN event. -/
theorem state_machine_event_characterization :
    (∀ (s : Stats) (r : CheckResult) (t : ℤ),
      (process_result s r t).2 = some Event.DOWN ↔
        (s.is_up = some true ∨ s.is_up = none) ∧ r.is_up = false) ∧
    (∀ (s : Stats) (r : CheckResult) (t : ℤ),
      (process_result s r t).2 = some Event.RECOVERY ↔
        s.is_up = some false ∧ r.is_up = true) ∧
    (∀ (s : Stats) (r : CheckResult) (t : ℤ),
      (process_result s r t).2 = none ↔
        ¬ ((s.is_up = some true ∨ s.is_up = none) ∧ r.is_up = false) ∧
        ¬ (s.is_up = some false ∧ r.is_up = true)) ∧
    (∀ (pre : List (CheckResult × ℤ)) (r1 r2 : CheckResult) (t1 t2 : ℤ),
      r1.is_up = false → r2.is_up = false →
      (run_events initial_stats (pre ++ [(r1, t1), (r2, t2)])).count
          Event.DOWN =
        (run_events initial_stats (pre ++ [(r1, t1)])).count Event.DOWN ∧
      ((run_state initial_stats pre).is_up ≠ some false →
        (run_events initial_stats (pre ++ [(r1, t1), (r2, t2)])).count
            Event.DOWN =
          (run_events initial_stats pre).count Event.DOWN + 1)) := by
  refine ⟨process_result_down_iff, process_result_recovery_iff,
    process_result_none_iff, ?_⟩
  intro pre r1 r2 t1 t2 h1 h2
  set s0 := run_state initial_stats pre with hs0
  have hup1 : (process_result s0 r1 t1).1.is_up = some false := by
    rw [process_result_is_up, h1]
  have hsecond : (process_result (process_result s0 r1 t1).1 r2 t2).2 = none := by
    rw [process_result_none_iff]
    constructor
    · rw [hup1]; simp
    · rw [h2]; simp
  have heq2 : run_events initial_stats (pre ++ [(r1, t1), (r2, t2)]) =
      run_events initial_stats pre ++
        (process_result s0 r1 t1).2.toList := by
    rw [run_events_append, ← hs0]
    simp [run_events, hsecond]
  have heq1 : run_events initial_stats (pre ++ [(r1, t1)]) =
      run_events initial_stats pre ++
        (process_result s0 r1 t1).2.toList := by
    rw [run_events_append, ← hs0]
    simp [run_events]
  constructor
  · rw [heq2, heq1]
  · intro hnd
    have hfirst : (process_result s0 r1 t1).2 = some Event.DOWN := by
      rw [process_result_down_iff]
      refine ⟨?_, h1⟩
      cases hcase : s0.is_up with
      | none => exact Or.inr rfl
      | some b =>
          cases b
          · exact absurd hcase hnd
          · exact Or.inl rfl
    rw [heq2, hfirst]
    simp
    decide

/-- Witness for C1: two timeout outcomes from the initial (Unknown)
state emit exactly one DOWN event. -/
theorem state_machine_event_characterization_witness :
    (run_events initial_stats
        ([] ++ [(down_result, 0), (down_result, 1)])).count Event.DOWN =
      (run_events initial_stats []).count Event.DOWN + 1 :=
  (state_machine_event_characterization.2.2.2 [] down_result down_result 0 1
    rfl rfl).2 (by decide)

/-- C6: from the initial Unknown state, a down outcome followed by an up
outcome emits exactly one DOWN event and then exactly one RECOVERY event,
in that order; `down_since` holds the time of the down transition in
between and is cleared to `none` by the recovery. -/
theorem down_then_up_emits_down_then_recovery
    (r1 r2 : CheckResult) (t1 t2 : ℤ)
    (h1 : r1.is_up = false) (h2 : r2.is_up = true) :
    run_events initial_stats [(r1, t1), (r2, t2)] =
      [Event.DOWN, Event.RECOVERY] ∧
    (run_state initial_stats [(r1, t1)]).down_since = some t1 ∧
    (run_state initial_stats [(r1, t1), (r2, t2)]).down_since = none := by
  have hinit : initial_stats.is_up = none := rfl
  have hfirst : (process_result initial_stats r1 t1).2 = some Event.DOWN := by
    rw [process_result_down_iff, hinit, h1]
    simp
  have hup1 : (process_result initial_stats r1 t1).1.is_up = some false := by
    rw [process_result_is_up, h1]
  have hsecond : (process_result (process_result initial_stats r1 t1).1
      r2 t2).2 = some Event.RECOVERY := by
    rw [process_result_recovery_iff, hup1, h2]
    simp
  refine ⟨?_, ?_, ?_⟩
  · simp [run_events, hfirst, hsecond]
  · exact process_result_down_since_set initial_stats r1 t1 h1
      (Or.inr hinit)
  · simp only [run_state]
    exact process_result_down_since_cleared _ r2 t2 h2 hup1

/-- Witness for C6: a timeout at time 5 followed by a successful probe. -/
theorem down_then_up_emits_down_then_recovery_witness :
    run_events initial_stats [(down_result, 5), (up_result, 6)] =
      [Event.DOWN, Event.RECOVERY] ∧
    (run_state initial_stats [(down_result, 5)]).down_since = some 5 ∧
    (run_state initial_stats
        [(down_result, 5), (up_result, 6)]).down_since = none :=
  down_then_up_emits_down_then_recovery down_result up_result 5 6 rfl rfl

/-- A successful probe result whose measured response time is `0.0`.
The Python test `if result["response_time"]:` treats it as falsy, so
`monitor_loop` does not append it to the rolling window. -/
def zero_latency_up : CheckResult :=
  { is_up := true, status_code := 200, response_time := some 0,
    content_length := 1500, error := none }

lemma run_state_zero_latency_window (n : ℕ) (s : Stats) :
    (run_state s
        (List.replicate n (zero_latency_up, (0 : ℤ)))).response_times =
      s.response_times := by
  induction n generalizing s with
  | zero => rfl
  | succ n ih =>
      rw [List.replicate_succ]
      simp only [run_state]
      rw [ih]
      simp only [process_result, zero_latency_up]
      split_ifs <;> simp_all

/-- Counterexample to C4 as stated: 61 recorded up-outcomes, each bearing
the latency value `0.0`, leave the window empty — the window does not
hold the latencies of recordings 2 through 61, because the truthiness
test `if result["response_time"]:` in the code drops a `0.0` latency. -/
theorem latency_window_claim_counterexample :
    (List.replicate 61 (zero_latency_up, (0 : ℤ))).length = 61 ∧
    zero_latency_up.is_up = true ∧
    zero_latency_up.response_time = some 0 ∧
    (run_state initial_stats
        (List.replicate 61 (zero_latency_up, (0 : ℤ)))).response_times = [] ∧
    (run_state initial_stats
        (List.replicate 61 (zero_latency_up, (0 : ℤ)))).response_times ≠
      ((List.replicate 61 (zero_latency_up, (0 : ℤ))).map
        fun p => p.1.response_time.getD 0).drop 1 := by
  have hwin : (run_state initial_stats
      (List.replicate 61 (zero_latency_up, (0 : ℤ)))).response_times = [] := by
    rw [run_state_zero_latency_window]; rfl
  refine ⟨by simp, rfl, rfl, hwin, ?_⟩
  intro h
  rw [hwin] at h
  have hlen := congrArg List.length h
  simp at hlen

/-- C4 (amended): the latency window never holds more than 60 entries;
and for every sequence of 61 recorded up-outcomes each bearing a
*nonzero* latency value, after the 61st recording the window holds
exactly the latencies of recordings 2 through 61, in order, so the first
latency of the first recording is absent whenever it does not recur
later. -/
theorem latency_window_capacity_and_fifo :
    (∀ l : List (CheckResult × ℤ),
      (run_state initial_stats l).response_times.length ≤ 60) ∧
    (∀ l : List (CheckResult × ℤ),
      (∀ p ∈ l, p.1.is_up = true ∧
        p.1.response_time ≠ none ∧ p.1.response_time ≠ some 0) →
      l.length = 61 →
      (run_state initial_stats l).response_times =
        (l.map fun p => p.1.response_time.getD 0).drop 1) ∧
    (∀ l : List (CheckResult × ℤ),
      (∀ p ∈ l, p.1.is_up = true ∧
        p.1.response_time ≠ none ∧ p.1.response_time ≠ some 0) →
      l.length = 61 →
      ∀ v0 : ℚ,
        (l.map fun p => p.1.response_time.getD 0).head? = some v0 →
        v0 ∉ (l.map fun p => p.1.response_time.getD 0).drop 1 →
        v0 ∉ (run_state initial_stats l).response_times) := by
  have hfifo : ∀ l : List (CheckResult × ℤ),
      (∀ p ∈ l, p.1.is_up = true ∧
        p.1.response_time ≠ none ∧ p.1.response_time ≠ some 0) →
      l.length = 61 →
      (run_state initial_stats l).response_times =
        (l.map fun p => p.1.response_time.getD 0).drop 1 := by
    intro l h hlen
    have h' : ∀ p ∈ l, p.1.is_up = true ∧
        ∃ v : ℚ, p.1.response_time = some v ∧ v ≠ 0 := by
      intro p hp
      obtain ⟨hup, hn, hz⟩ := h p hp
      refine ⟨hup, ?_⟩
      cases hrt : p.1.response_time with
      | none => exact absurd hrt hn
      | some v => exact ⟨v, rfl, fun hv => hz (by rw [hrt, hv])⟩
    rw [run_state_window_fold l initial_stats h']
    have hinit : initial_stats.response_times = ([] : List ℚ) := rfl
    rw [hinit, foldl_trimWindow_drop _ [] (by simp)]
    simp [hlen]
  refine ⟨?_, hfifo, ?_⟩
  · intro l
    exact run_state_window_le l initial_stats (by simp [initial_stats])
  · intro l h hlen v0 _ hmem
    rw [hfifo l h hlen]
    exact hmem

/-- The 61 up-outcomes with latencies 1, 2, …, 61, for the C4 witness. -/
def fifo_witness_list : List (CheckResult × ℤ) :=
  (List.range 61).map fun i : ℕ =>
    ({ is_up := true, status_code := 200, response_time := some ((i : ℚ) + 1),
       content_length := 1500, error := none }, (0 : ℤ))

/-- Witness for C4 (amended): after recording latencies 1 through 61,
the window holds the latencies of recordings 2 through 61. -/
theorem latency_window_capacity_and_fifo_witness :
    (run_state initial_stats fifo_witness_list).response_times =
      (fifo_witness_list.map fun p => p.1.response_time.getD 0).drop 1 :=
  latency_window_capacity_and_fifo.2.1 fifo_witness_list
    (by
      intro p hp
      simp only [fifo_witness_list, List.mem_map, List.mem_range] at hp
      obtain ⟨i, hi, rfl⟩ := hp
      have hge : (0 : ℚ) ≤ (i : ℚ) := Nat.cast_nonneg i
      have hpos : (0 : ℚ) < (i : ℚ) + 1 := by linarith
      exact ⟨rfl, by simp, by simpa using ne_of_gt hpos⟩)
    (by
      unfold fifo_witness_list
      rw [List.length_map, List.length_range])

/-- C7: a response whose status code is below 400 but whose body is
shorter than the configured minimum is classified as down, with an error
message citing the actual and expected byte counts. -/
theorem short_content_classified_down (MIN : ℕ) (REQ : String)
    (resp : HttpResponse) (rt : ℚ)
    (hsc : resp.status_code < 400)
    (hlen : resp.content.length < MIN) :
    (check_website MIN REQ resp rt).is_up = false ∧
    (check_website MIN REQ resp rt).error =
      some ("Content too short (" ++ toString resp.content.length ++
        " bytes, expected >" ++ toString MIN ++ ")") := by
  simp only [check_website]
  rw [if_neg (by omega), if_pos hlen]
  exact ⟨rfl, rfl⟩

/-- An HTTP 200 response with a 3-byte body, for the C7 witness. -/
def short_response : HttpResponse :=
  { status_code := 200, content := [104, 105, 33], text := "hi!" }

/-- Witness for C7: status 200, 3-byte body, minimum 1000 bytes. -/
theorem short_content_classified_down_witness :
    (check_website 1000 "" short_response 50).is_up = false ∧
    (check_website 1000 "" short_response 50).error =
      some ("Content too short (" ++ toString short_response.content.length ++
        " bytes, expected >" ++ toString (1000 : ℕ) ++ ")") :=
  short_content_classified_down 1000 "" short_response 50
    (by decide) (by decide)

/-- C9: the validation order of `check_website` gives the status-code
rule precedence — status ≥ 400 yields exactly the "HTTP <code>" error no
matter what the body looks like; the content-length rule applies only
when the status is below 400 (and then wins over the substring rule);
the required-substring rule applies only when the length check passes;
and when all applicable checks pass the outcome is up with no error. -/
theorem check_website_precedence (MIN : ℕ) (REQ : String)
    (resp : HttpResponse) (rt : ℚ) :
    (resp.status_code ≥ 400 →
      (check_website MIN REQ resp rt).is_up = false ∧
      (check_website MIN REQ resp rt).error =
        some ("HTTP " ++ toString resp.status_code)) ∧
    (resp.status_code < 400 → resp.content.length < MIN →
      (check_website MIN REQ resp rt).is_up = false ∧
      (check_website MIN REQ resp rt).error =
        some ("Content too short (" ++ toString resp.content.length ++
          " bytes, expected >" ++ toString MIN ++ ")")) ∧
    (resp.status_code < 400 → MIN ≤ resp.content.length →
      REQ ≠ "" → hasSubstring resp.text.data REQ.data = false →
      (check_website MIN REQ resp rt).is_up = false ∧
      (check_website MIN REQ resp rt).error =
        some ("Required content " ++ REQ ++ " not found")) ∧
    (resp.status_code < 400 → MIN ≤ resp.content.length →
      (REQ = "" ∨ hasSubstring resp.text.data REQ.data = true) →
      (check_website MIN REQ resp rt).is_up = true ∧
      (check_website MIN REQ resp rt).error = none) := by
  refine ⟨?_, ?_, ?_, ?_⟩
  · intro h
    simp only [check_website]
    rw [if_pos h]
    exact ⟨rfl, rfl⟩
  · intro h hlen
    simp only [check_website]
    rw [if_neg (by omega), if_pos hlen]
    exact ⟨rfl, rfl⟩
  · intro h hlen hREQ hsub
    simp only [check_website]
    rw [if_neg (by omega), if_neg (by omega), if_pos ⟨hREQ, hsub⟩]
    exact ⟨rfl, rfl⟩
  · intro h hlen hok
    simp only [check_website]
    rw [if_neg (by omega), if_neg (by omega), if_neg ?_]
    · exact ⟨rfl, rfl⟩
    · rintro ⟨hne, hf⟩
      rcases hok with h0 | h1
      · exact hne h0
      · rw [h1] at hf
        exact Bool.noConfusion hf

/-- An HTTP 500 response that also has a too-short body missing the
required substring, for the C9 witness. -/
def bad_response : HttpResponse :=
  { status_code := 500, content := [101], text := "e" }

/-- Witness for C9: with status 500, a 1-byte body and a missing required
substring, the error is exactly the HTTP status error. -/
theorem check_website_precedence_witness :
    (check_website 1000 "genius" bad_response 50).is_up = false ∧
    (check_website 1000 "genius" bad_response 50).error =
      some ("HTTP " ++ toString bad_response.status_code) :=
  (check_website_precedence 1000 "genius" bad_response 50).1 (by decide)

end GeniusMonitor
